import Mathlib

/-!
# Verification of the MZ-test quiz application (src/app.py)

A shallow embedding of the core logic of `app.py`: the grader `judge`, the
tier resolver `result_tier`, the CSV question loader `load_questions`
(including the `safe_int` sort key), the result-page computation, and the
session state machine of `main`.

Modelling conventions:
* Python strings are Lean `String`s; a Python value that may be `None` is an
  `Option String`.  Python's truthiness-based `x or ""` on such a value is
  `pyOrEmpty`.
* `str.strip()` is `strip` (drops the ASCII whitespace characters recognised
  by `Char.isWhitespace`; the claims only involve those), `str.lower()` is
  `lower` (ASCII lowercasing, which agrees with Python on the strings in the
  claims).
* The Python builtin `int(x)` is modelled by `pyIntOfString`: strip
  whitespace, optional sign, then a nonempty run of decimal digits
  (underscore digit separators are not modelled; none of the claims use
  them).  Failure is `none`, standing for the raised `ValueError`.
* `streamlit` effects (`st.error`/`st.warning` + `st.stop`) are modelled
  with `Except` and an optional warning message: an `.error` value is the
  user-visible message after which the flow halts.
* `list.sort(key=...)` is Python's stable ascending sort; it is modelled by
  Mathlib's `List.insertionSort`, which is also stable.
* CSV lines are split on commas (`splitCSVLine`); quoted fields are not
  modelled, no claim involves them.
-/

/-- Python `x or ""` for a string-or-`None` value `x`: `None` becomes the
empty string, a string stays itself (an empty string is falsy in Python, but
`"" or ""` is `""` as well, so the result agrees). -/
def pyOrEmpty : Option String → String
  | none => ""
  | some s => s

/-- Python `str.strip()`: drop leading and trailing whitespace. -/
def strip (s : String) : String :=
  String.mk (((s.toList.dropWhile Char.isWhitespace).reverse.dropWhile
    Char.isWhitespace).reverse)

/-- Python `str.lower()` restricted to ASCII case mapping. -/
def lower (s : String) : String :=
  String.mk (s.toList.map Char.toLower)

/-- Value of a list of decimal digit characters. -/
def natOfDigits (cs : List Char) : Nat :=
  cs.foldl (fun acc c => acc * 10 + (c.toNat - 48)) 0

/-- Python `int(x)` on a string: strip whitespace, allow one optional sign,
then require a nonempty run of decimal digits; `none` models the raised
`ValueError`. -/
def pyIntOfString (s : String) : Option Int :=
  let cs := (strip s).toList
  match cs with
  | [] => none
  | c :: rest =>
    if c = '+' then
      if rest ≠ [] ∧ rest.all Char.isDigit then some (natOfDigits rest) else none
    else if c = '-' then
      if rest ≠ [] ∧ rest.all Char.isDigit then some (-(natOfDigits rest : Int)) else none
    else
      if cs.all Char.isDigit then some (natOfDigits cs) else none

/-- `safe_int` from `load_questions` (app.py lines 90–94): `int(x)`, and on
any parse failure the sentinel `10 ** 9`. -/
def safe_int (x : String) : Int :=
  match pyIntOfString x with
  | some n => n
  | none => 10 ^ 9

/-- `judge` (app.py lines 102–119): trim both answers (`None` treated as
empty), compare case-insensitively for the subjective type 주관식, exactly
otherwise. -/
def judge (user_answer correct_answer : Option String) (qtype : String) : Bool :=
  let ua := strip (pyOrEmpty user_answer)
  let ca := strip (pyOrEmpty correct_answer)
  if qtype = "주관식" then lower ua == lower ca
  else ua == ca

/-- `result_tier` (app.py lines 124–140): map a score to the result image
and message, first matching branch wins. -/
def result_tier (score : Int) : String × String :=
  if score ≤ 5 then
    ("result1.png", "오.. 아직 MZ 감성 입문! 다음엔 더 잘하실 수 있어요 😉")
  else if 6 ≤ score ∧ score ≤ 10 then
    ("result2.png", "좋아요! 감이 오기 시작했어요 😎")
  else if 11 ≤ score ∧ score ≤ 15 then
    ("result3.png", "우와! 꽤나 MZ 트렌디하신데요? 🔥")
  else
    ("result4.png", "완벽! 당신은 거의 MZ 그 자체 🙌")

/-- A question record as assembled by `load_questions` (app.py lines 81–88):
the per-row dictionary with keys id, question, type, image, choices (the
ordered triple of choice1..choice3) and answer. -/
structure Question where
  id : String
  question : String
  type : String
  image : String
  choices : List String
  answer : String
deriving Repr, DecidableEq, Inhabited

/-- Header-name cleaning (app.py line 72): lstrip of U+FEFF, dropping every
leading byte-order-mark character. -/
def cleanName (s : String) : String :=
  String.mk (s.toList.dropWhile (fun c => c = '\ufeff'))

/-- `field_map.get(key, key)` (app.py lines 73 and 76): the dict built from
`zip(clean_names, fieldnames)` (later duplicates win, hence the reverse
lookup), defaulting to the key itself. -/
def field_map_get (fieldnames : List String) (key : String) : String :=
  match (((fieldnames.map cleanName).zip fieldnames).reverse).lookup key with
  | some orig => orig
  | none => key

/-- A `csv.DictReader` row: each header field name paired with its cell,
`none` standing for Python `None` when the data line has fewer cells than
the header (the reader's `restval`). -/
def rowOfCells : List String → List String → List (String × Option String)
  | [], _ => []
  | h :: hs, cells => (h, cells.head?) :: rowOfCells hs cells.tail

/-- Python `row.get(real, dflt)` on a `DictReader` row: later duplicate
header names win in the dict, hence the reverse lookup. -/
def pyDictGetD (row : List (String × Option String)) (key : String)
    (dflt : Option String) : Option String :=
  match row.reverse.lookup key with
  | some v => v
  | none => dflt

/-- The inner `get` of `load_questions` (app.py lines 75–77), named
`getField` here because a bare `get` is ambiguous in Lean:
`(row.get(field_map.get(key, key), "") or "").strip()`. -/
def getField (fieldnames : List String) (row : List (String × Option String))
    (key : String) : String :=
  strip (pyOrEmpty (pyDictGetD row (field_map_get fieldnames key) (some "")))

/-- One item of the row loop (app.py lines 80–88). -/
def mkQuestion (fieldnames : List String)
    (row : List (String × Option String)) : Question :=
  { id := getField fieldnames row "id"
    question := getField fieldnames row "question"
    type := getField fieldnames row "type"
    image := getField fieldnames row "image"
    choices := [getField fieldnames row "choice1", getField fieldnames row "choice2",
      getField fieldnames row "choice3"]
    answer := getField fieldnames row "answer" }

/-- The sort key order of app.py line 96: ascending by `safe_int` of the id.
-/
def qle (a b : Question) : Prop := safe_int a.id ≤ safe_int b.id

instance : DecidableRel qle := fun a b =>
  inferInstanceAs (Decidable (safe_int a.id ≤ safe_int b.id))

instance : IsTotal Question qle := ⟨fun _ _ => Int.le_total _ _⟩

instance : IsTrans Question qle := ⟨fun _ _ _ hab hbc => le_trans hab hbc⟩

/-- `items.sort(key=lambda q: safe_int(q["id"]))` (app.py line 96): Python's
sort is stable and ascending; modelled by stable insertion sort. -/
def sortQuestions (items : List Question) : List Question :=
  items.insertionSort qle

/-- Splitting one CSV line into cells on commas (quoted fields are not
modelled; no claim involves them). -/
def splitCellsAux : List Char → List Char → List String
  | [], acc => [String.mk acc.reverse]
  | c :: rest, acc =>
    if c = ',' then String.mk acc.reverse :: splitCellsAux rest []
    else splitCellsAux rest (c :: acc)

/-- Cells of one CSV line. -/
def splitCSVLine (s : String) : List String := splitCellsAux s.toList []

/-- The row loop of `load_questions` applied to the data lines. -/
def parseItems (fieldnames : List String) (dataLines : List String) :
    List Question :=
  dataLines.map (fun ln => mkQuestion fieldnames (rowOfCells fieldnames (splitCSVLine ln)))

/-- `load_questions` (app.py lines 45–97).  The source is `none` when the
file does not exist, otherwise the list of raw lines of the file; an
`Except.error` is the `st.error` message after which `st.stop()` halts the
flow. -/
def load_questions (src : Option (List String)) : Except String (List Question) :=
  match src with
  | none => Except.error "CSV 파일을 찾을 수 없습니다"
  | some raw =>
    match raw.filter (fun ln => strip ln != "") with
    | [] => Except.error "CSV에 데이터가 없습니다."
    | headerLine :: dataLines =>
      Except.ok (sortQuestions (parseItems (splitCSVLine headerLine) dataLines))

/-- Records whose id fails the integer parse, the ones `safe_int` maps to
the sentinel. -/
def unparsableId (q : Question) : Bool := (pyIntOfString q.id).isNone

/-- Python `answers.get(k, dflt)` on the answer map. -/
def dictGet (d : List (String × String)) (k : String) (dflt : String) : String :=
  match d.lookup k with
  | some v => v
  | none => dflt

/-- One row of the result table (app.py lines 289–292): question number
(`int(qid)`), question text, the submitted answer, the reference answer and
the O/X mark. -/
structure ResultRow where
  no : Int
  question : String
  my : String
  answer : String
  mark : String
deriving Repr, DecidableEq

/-- The result-page loop (app.py lines 281–292): grade every question
against the answer map (missing entries default to the empty string), count
the correct ones and build the row list.  Evaluating `int(qid)` on a
non-numeric id raises `ValueError`, modelled by `Except.error`. -/
def computeResult (qs : List Question) (answers : List (String × String)) :
    Except String (Nat × List ResultRow) :=
  match qs with
  | [] => Except.ok (0, [])
  | q :: rest =>
    let myAns := dictGet answers q.id ""
    let ok := judge (some myAns) (some q.answer) q.type
    match pyIntOfString q.id with
    | none => Except.error ("invalid literal for int(): " ++ q.id)
    | some n =>
      match computeResult rest answers with
      | Except.error e => Except.error e
      | Except.ok (c, rows) =>
        Except.ok ((if ok then 1 else 0) + c,
          ({ no := n, question := q.question, my := myAns, answer := q.answer,
             mark := if ok then "O" else "X" } : ResultRow) :: rows)

/-- The per-session state of `main` (app.py lines 203–209): the page
counter, the answer map and the username.  The loaded question list is not
part of the mutable state; it is recomputed from the immutable source. -/
structure SessionState where
  page : Nat
  answers : List (String × String)
  username : String
deriving Repr, DecidableEq

/-- Python dict assignment `d[k] = v`: overwrite in place when the key
exists, append otherwise. -/
def dictSet : List (String × String) → String → String → List (String × String)
  | [], k, v => [(k, v)]
  | (k0, v0) :: rest, k, v =>
    if k0 = k then (k0, v) :: rest else (k0, v0) :: dictSet rest k v

/-- Python `not answer` for the submitted value: `None` (the radio
no-selection sentinel) and the empty string are falsy. -/
def pyFalsy : Option String → Bool
  | none => true
  | some s => s == ""

/-- The user interactions `main` reacts to: pressing start (with the typed
username), submitting an answer (`none` when no radio option is selected),
and pressing restart. -/
inductive SessionAction where
  | start : String → SessionAction
  | submit : Option String → SessionAction
  | restart : SessionAction

/-- One interaction of `main` (app.py lines 212–309) as a step function on
the session state: page 0 is the start screen (lines 212–219), pages
1..total show question `page` (lines 222–277, with the two validation
warnings of lines 260–272 and the record-and-advance of lines 273–276), and
any larger page is the result screen whose restart button resets page and
answers (lines 306–309).  The second component is the warning message shown
by `st.warning`, after which `st.stop()` halts with the state unchanged.
The `default` fallback of `getD` is unreachable: the guard gives
`page - 1 < questions.length`. -/
def step (questions : List Question) (s : SessionState) (a : SessionAction) :
    SessionState × Option String :=
  if s.page = 0 then
    match a with
    | SessionAction.start name => ({ s with username := name, page := 1 }, none)
    | _ => (s, none)
  else if s.page ≤ questions.length then
    match a with
    | SessionAction.submit ans =>
      let q := questions.getD (s.page - 1) default
      if strip q.type = "객관식" ∧ pyFalsy ans = true then
        (s, some "보기를 선택해 주세요.")
      else if strip q.type = "주관식" ∧ strip (pyOrEmpty ans) = "" then
        (s, some "정답을 입력해 주세요.")
      else
        ({ s with answers := dictSet s.answers q.id (strip (pyOrEmpty ans)),
                  page := s.page + 1 }, none)
    | _ => (s, none)
  else
    match a with
    | SessionAction.restart => ({ s with page := 0, answers := [] }, none)
    | _ => (s, none)

/-- Lookup misses when no key of the association list equals the probe. -/
theorem lookup_eq_none_of_fst_ne {β : Type} (l : List (String × β)) (k : String)
    (h : ∀ p ∈ l, p.1 ≠ k) : l.lookup k = none := by
  induction l with
  | nil => rfl
  | cons p rest ih =>
    obtain ⟨k1, v1⟩ := p
    have hne : k1 ≠ k := h (k1, v1) (List.mem_cons_self _ _)
    have hb : (k == k1) = false := by
      simp only [beq_eq_false_iff_ne]
      exact fun hh => hne hh.symm
    simp only [List.lookup, hb]
    exact ih fun p hp => h p (List.mem_cons_of_mem _ hp)

/-- Every key of a `DictReader` row is a header field name. -/
theorem rowOfCells_fst_mem (fieldnames cells : List String) :
    ∀ p ∈ rowOfCells fieldnames cells, p.1 ∈ fieldnames := by
  induction fieldnames generalizing cells with
  | nil => intro p hp; simp [rowOfCells] at hp
  | cons h hs ih =>
    intro p hp
    simp only [rowOfCells, List.mem_cons] at hp
    rcases hp with rfl | hp
    · exact List.mem_cons_self _ _
    · exact List.mem_cons_of_mem _ (ih cells.tail p hp)

/-- A key that is no cleaned header name falls through `field_map_get`. -/
theorem field_map_get_of_not_mem (fieldnames : List String) (key : String)
    (h : key ∉ fieldnames.map cleanName) : field_map_get fieldnames key = key := by
  unfold field_map_get
  rw [lookup_eq_none_of_fst_ne]
  intro p hp
  rw [List.mem_reverse] at hp
  obtain ⟨a, b⟩ := p
  have hm := List.of_mem_zip hp
  intro hq
  exact h (hq ▸ hm.1)

/-- An id that fails the integer parse gets the sentinel key. -/
theorem unparsable_safe_int {q : Question} (h : unparsableId q = true) :
    safe_int q.id = 10 ^ 9 := by
  unfold unparsableId at h
  unfold safe_int
  cases hh : pyIntOfString q.id with
  | none => rfl
  | some n => rw [hh] at h; simp at h

/-- An id that parses keeps its parsed value as the sort key. -/
theorem parse_safe_int {q : Question} {k : Int} (h : pyIntOfString q.id = some k) :
    safe_int q.id = k := by
  unfold safe_int; rw [h]

/-- Inserting an unparsable-id record puts it in front of the unparsable
records already present (they compare equal, and insertion places the new
element first). -/
theorem filter_orderedInsert_unparsable (x : Question) (l : List Question)
    (hx : unparsableId x = true) :
    (List.orderedInsert qle x l).filter unparsableId = x :: l.filter unparsableId := by
  induction l with
  | nil => simp [List.orderedInsert, List.filter, hx]
  | cons y ys ih =>
    by_cases hxy : qle x y
    · simp [List.orderedInsert, hxy, List.filter, hx]
    · have hy : unparsableId y = false := by
        cases hyv : unparsableId y with
        | false => rfl
        | true =>
          exact absurd (by
            unfold qle
            rw [unparsable_safe_int hx, unparsable_safe_int hyv]) hxy
      simp only [List.orderedInsert, if_neg hxy]
      simp [List.filter, hy, ih]

/-- Inserting a parsable-id record leaves the unparsable records untouched.
-/
theorem filter_orderedInsert_parsable (x : Question) (l : List Question)
    (hx : unparsableId x = false) :
    (List.orderedInsert qle x l).filter unparsableId = l.filter unparsableId := by
  induction l with
  | nil => simp [List.orderedInsert, List.filter, hx]
  | cons y ys ih =>
    by_cases hxy : qle x y
    · simp [List.orderedInsert, hxy, List.filter, hx]
    · simp only [List.orderedInsert, if_neg hxy]
      cases hy : unparsableId y <;> simp [List.filter, hy, ih]

/-- Stability of the sort on the unparsable-id records: they keep their
original relative order. -/
theorem filter_sortQuestions (l : List Question) :
    (sortQuestions l).filter unparsableId = l.filter unparsableId := by
  induction l with
  | nil => rfl
  | cons a l ih =>
    have ih2 : (List.insertionSort qle l).filter unparsableId = l.filter unparsableId := ih
    rw [sortQuestions, List.insertionSort]
    cases ha : unparsableId a with
    | false => rw [filter_orderedInsert_parsable a _ ha, ih2]; simp [List.filter, ha]
    | true => rw [filter_orderedInsert_unparsable a _ ha, ih2]; simp [List.filter, ha]

/-- C1: `judge` trims surrounding whitespace from both inputs (a missing
input counting as the empty string); for the subjective type 주관식 it is
true iff the trimmed strings are equal after lowercasing both sides, and
for every other type iff they are exactly, case-sensitively equal; in
particular judge "Yolo" "yolo" 주관식 is true, judge "Yolo" "yolo" 객관식
is false and judge "" "" 주관식 is true. -/
theorem judge_spec :
    (∀ s r : Option String,
      judge s r "주관식"
        = (lower (strip (pyOrEmpty s)) == lower (strip (pyOrEmpty r))))
    ∧ (∀ (s r : Option String) (t : String), t ≠ "주관식" →
      judge s r t = (strip (pyOrEmpty s) == strip (pyOrEmpty r)))
    ∧ judge (some "Yolo") (some "yolo") "주관식" = true
    ∧ judge (some "Yolo") (some "yolo") "객관식" = false
    ∧ judge (some "") (some "") "주관식" = true := by
  refine ⟨fun s r => ?_, fun s r t ht => ?_, by decide, by decide, by decide⟩
  · simp [judge]
  · simp [judge, ht]

/-- Closed instance of `judge_spec`: its case-sensitive branch applied to
the non-subjective type 객관식. -/
theorem judge_spec_witness :
    judge (some "Ab") (some "ab") "객관식"
      = (strip (pyOrEmpty (some "Ab")) == strip (pyOrEmpty (some "ab"))) :=
  judge_spec.2.1 (some "Ab") (some "ab") "객관식" (by decide)

/-- C2: `result_tier` is pure and total on scores ≥ 0 with inclusive
thresholds evaluated in order, first match wins: scores ≤ 5 give tier 1,
6..10 tier 2, 11..15 tier 3, and ≥ 16 tier 4; the boundary scores 5, 6,
15, 16 land in tiers 1, 2, 3, 4 respectively, and the four messages are
non-empty and pairwise distinct. -/
theorem result_tier_spec :
    (∀ s : Int, 0 ≤ s → s ≤ 5 → result_tier s = result_tier 5)
    ∧ (∀ s : Int, 6 ≤ s → s ≤ 10 → result_tier s = result_tier 6)
    ∧ (∀ s : Int, 11 ≤ s → s ≤ 15 → result_tier s = result_tier 15)
    ∧ (∀ s : Int, 16 ≤ s → result_tier s = result_tier 16)
    ∧ result_tier 5 = ("result1.png", "오.. 아직 MZ 감성 입문! 다음엔 더 잘하실 수 있어요 😉")
    ∧ result_tier 6 = ("result2.png", "좋아요! 감이 오기 시작했어요 😎")
    ∧ result_tier 15 = ("result3.png", "우와! 꽤나 MZ 트렌디하신데요? 🔥")
    ∧ result_tier 16 = ("result4.png", "완벽! 당신은 거의 MZ 그 자체 🙌")
    ∧ (result_tier 5).2 ≠ "" ∧ (result_tier 6).2 ≠ ""
    ∧ (result_tier 15).2 ≠ "" ∧ (result_tier 16).2 ≠ ""
    ∧ (result_tier 5).2 ≠ (result_tier 6).2
    ∧ (result_tier 5).2 ≠ (result_tier 15).2
    ∧ (result_tier 5).2 ≠ (result_tier 16).2
    ∧ (result_tier 6).2 ≠ (result_tier 15).2
    ∧ (result_tier 6).2 ≠ (result_tier 16).2
    ∧ (result_tier 15).2 ≠ (result_tier 16).2 := by
  refine ⟨fun s h0 h5 => ?_, fun s h6 h10 => ?_, fun s h11 h15 => ?_,
    fun s h16 => ?_, by decide, by decide, by decide, by decide,
    by decide, by decide, by decide, by decide, by decide, by decide,
    by decide, by decide, by decide, by decide⟩ <;>
  · simp only [result_tier]
    split_ifs <;> first | rfl | omega

/-- Closed instance of `result_tier_spec`: the score 3 is in tier 1. -/
theorem result_tier_spec_witness : result_tier 3 = result_tier 5 :=
  result_tier_spec.1 3 (by decide) (by decide)

/-- C5: `load_questions` reports an error and halts exactly when the source
file does not exist or the line set is empty after blank-line removal; every
other source loads without halting. -/
theorem load_questions_halts_iff (src : Option (List String)) :
    (∃ msg, load_questions src = Except.error msg)
      ↔ src = none
        ∨ ∃ raw, src = some raw ∧ raw.filter (fun ln => strip ln != "") = [] := by
  cases src with
  | none => simp [load_questions]
  | some raw =>
    simp only [load_questions]
    cases hf : raw.filter (fun ln => strip ln != "") with
    | nil =>
      simp only [hf]
      constructor
      · intro _; exact Or.inr ⟨raw, rfl, hf⟩
      · intro _; exact ⟨"CSV에 데이터가 없습니다.", rfl⟩
    | cons hd tl =>
      simp only [hf]
      constructor
      · rintro ⟨msg, hmsg⟩; cases hmsg
      · rintro (hnone | ⟨raw2, hr, hfil⟩)
        · cases hnone
        · injection hr with hr
          rw [hr, hfil] at hf
          cases hf

/-- C9: per-row field extraction never fails: a cell whose column is absent
or whose value is `None` resolves to the empty string, a present cell value
is trimmed, a key that is no (cleaned) header name resolves to the empty
string, and choices is the ordered triple of the choice1..choice3 fields. -/
theorem getField_missing_defaults (fieldnames : List String)
    (row : List (String × Option String)) (cells : List String) (key : String) :
    (row.reverse.lookup (field_map_get fieldnames key) = none →
      getField fieldnames row key = "")
    ∧ (row.reverse.lookup (field_map_get fieldnames key) = some none →
      getField fieldnames row key = "")
    ∧ (∀ v, row.reverse.lookup (field_map_get fieldnames key) = some (some v) →
      getField fieldnames row key = strip v)
    ∧ (key ∉ fieldnames → key ∉ fieldnames.map cleanName →
      getField fieldnames (rowOfCells fieldnames cells) key = "")
    ∧ (mkQuestion fieldnames row).choices
        = [getField fieldnames row "choice1", getField fieldnames row "choice2",
           getField fieldnames row "choice3"] := by
  refine ⟨fun h => ?_, fun h => ?_, fun v h => ?_, fun hk1 hk2 => ?_, rfl⟩
  · simp only [getField, pyDictGetD]; rw [h]; rfl
  · simp only [getField, pyDictGetD]; rw [h]; rfl
  · simp only [getField, pyDictGetD]; rw [h]; rfl
  · have hm : field_map_get fieldnames key = key :=
      field_map_get_of_not_mem fieldnames key hk2
    have hl : (rowOfCells fieldnames cells).reverse.lookup key = none := by
      apply lookup_eq_none_of_fst_ne
      intro p hp hq
      rw [List.mem_reverse] at hp
      exact hk1 (hq ▸ rowOfCells_fst_mem fieldnames cells p hp)
    simp only [getField, pyDictGetD, hm]
    rw [hl]
    rfl

/-- Closed instance of `getField_missing_defaults`: a key absent from the
header resolves to the empty string. -/
theorem getField_missing_defaults_witness :
    getField ["id"] (rowOfCells ["id"] ["7"]) "question" = "" :=
  (getField_missing_defaults ["id"] (rowOfCells ["id"] ["7"]) ["7"]
    "question").2.2.2.1 (by decide) (by decide)

/-- C3 is false as stated: with the ids 2000000000 (a valid integer above
the 10^9 sentinel) and x (unparsable), the loader places the unparsable-id
record first, before a valid-integer-id record. -/
theorem load_questions_unparsable_sorts_first :
    (load_questions (some ["id", "2000000000", "x"])).map (fun qs => qs.map Question.id)
      = Except.ok ["x", "2000000000"]
    ∧ pyIntOfString "x" = none
    ∧ pyIntOfString "2000000000" = some 2000000000 := ⟨rfl, rfl, rfl⟩

/-- C3 (amended): the loader's output is the stable ascending sort of the
parsed records by `safe_int` of the id, so it is non-decreasing in that
key, every unparsable-id record (key = sentinel 10^9) appears after all
records whose id parses to an integer below 10^9 (but not necessarily after
ids parsing to 10^9 or more), and unparsable-id records keep their original
relative order among themselves. -/
theorem sortQuestions_spec :
    (∀ items : List Question,
      List.Sorted qle (sortQuestions items)
      ∧ List.Pairwise (fun a b => unparsableId a = true →
          ∀ k : Int, pyIntOfString b.id = some k → 10 ^ 9 ≤ k) (sortQuestions items)
      ∧ (sortQuestions items).filter unparsableId = items.filter unparsableId)
    ∧ ∀ (raw : List String) (hd : String) (tl : List String),
        raw.filter (fun ln => strip ln != "") = hd :: tl →
        load_questions (some raw)
          = Except.ok (sortQuestions (parseItems (splitCSVLine hd) tl)) := by
  constructor
  · intro items
    refine ⟨List.sorted_insertionSort qle items, ?_, filter_sortQuestions items⟩
    refine List.Pairwise.imp ?_ (List.sorted_insertionSort qle items)
    intro a b hab ha k hk
    have h1 : safe_int a.id = 10 ^ 9 := unparsable_safe_int ha
    have h2 : safe_int b.id = k := parse_safe_int hk
    unfold qle at hab
    rw [h1, h2] at hab
    exact hab
  · intro raw hd tl hf
    simp only [load_questions]
    rw [hf]

/-- Closed instance of `sortQuestions_spec`: the empty sort is sorted, and
the loader output for a header-only source is the sorted parse of no rows.
-/
theorem sortQuestions_spec_witness :
    List.Sorted qle (sortQuestions [])
    ∧ load_questions (some ["id"]) = Except.ok (sortQuestions (parseItems ["id"] [])) :=
  ⟨(sortQuestions_spec.1 []).1, sortQuestions_spec.2 ["id"] "id" [] rfl⟩

/-- C4: the non-numeric id x is non-fatal during loading (the sentinel
recovers it), but the claim that no exception escapes anywhere in the
caller-visible flow is wrong: the result-page row computation evaluates
`int("x")` (app.py line 290) and raises `ValueError`. -/
theorem malformed_id_crashes_result_page :
    load_questions (some ["id", "x"])
      = Except.ok [{ id := "x", question := "", type := "", image := "",
                     choices := ["", "", ""], answer := "" }]
    ∧ computeResult [{ id := "x", question := "", type := "", image := "",
                       choices := ["", "", ""], answer := "" }] []
        = Except.error "invalid literal for int(): x" := ⟨rfl, rfl⟩

/-- C6: restart from the result page (page > total) sets the page to 0 and
empties the answer map, and changes nothing else: the username keeps its
prior value, and the question list (an input of `step`, not part of the
mutable state) is untouched. -/
theorem restart_resets (questions : List Question) (s : SessionState)
    (h : questions.length < s.page) :
    step questions s SessionAction.restart
      = ({ page := 0, answers := [], username := s.username }, none) := by
  have h0 : ¬ s.page = 0 := by omega
  have h1 : ¬ s.page ≤ questions.length := by omega
  simp [step, h0, h1]

/-- Closed instance of `restart_resets`. -/
theorem restart_resets_witness :
    step [] { page := 1, answers := [("1", "a")], username := "kim" } SessionAction.restart
      = ({ page := 0, answers := [], username := "kim" }, none) :=
  restart_resets [] { page := 1, answers := [("1", "a")], username := "kim" } (by decide)

/-- C7: on a question page, a multiple-choice submission with nothing
selected, or a subjective submission that is blank after trimming, produces
the corresponding warning and halts with the whole state (page and answers)
unchanged. -/
theorem invalid_submit_no_mutation (questions : List Question) (s : SessionState)
    (ans : Option String) (h0 : 1 ≤ s.page) (h1 : s.page ≤ questions.length) :
    (strip (questions.getD (s.page - 1) default).type = "객관식" → pyFalsy ans = true →
      step questions s (SessionAction.submit ans) = (s, some "보기를 선택해 주세요."))
    ∧ (strip (questions.getD (s.page - 1) default).type = "주관식" →
        strip (pyOrEmpty ans) = "" →
      step questions s (SessionAction.submit ans) = (s, some "정답을 입력해 주세요.")) := by
  have hp0 : ¬ s.page = 0 := by omega
  constructor
  · intro ht hf
    simp only [step, if_neg hp0, if_pos h1]
    rw [if_pos ⟨ht, hf⟩]
  · intro ht hb
    have hneg : ¬ (strip (questions.getD (s.page - 1) default).type = "객관식"
        ∧ pyFalsy ans = true) := by
      rintro ⟨hc, _⟩
      exact absurd (ht.symm.trans hc) (by decide)
    simp only [step, if_neg hp0, if_pos h1]
    rw [if_neg hneg, if_pos ⟨ht, hb⟩]

/-- Closed instance of `invalid_submit_no_mutation`: an unselected
multiple-choice submission warns and leaves the state unchanged. -/
theorem invalid_submit_witness :
    step [{ id := "1", question := "", type := "객관식", image := "",
            choices := ["a", "b", "c"], answer := "b" }]
        { page := 1, answers := [], username := "" } (SessionAction.submit none)
      = ({ page := 1, answers := [], username := "" }, some "보기를 선택해 주세요.") :=
  (invalid_submit_no_mutation
    [{ id := "1", question := "", type := "객관식", image := "",
       choices := ["a", "b", "c"], answer := "b" }]
    { page := 1, answers := [], username := "" } none
    (by decide) (by decide)).1 (by decide) (by decide)

/-- C8: a valid submission on question page n records the trimmed value
under the question's id and advances the page by exactly one (reaching the
result page when n = total); and across all actions the page either
advances by exactly one, stays put, or resets to 0 — it is never
decremented. -/
theorem submit_records_and_page_monotonic (questions : List Question)
    (s : SessionState) (ans : Option String) :
    (s.page ≠ 0 → s.page ≤ questions.length →
      ¬ (strip (questions.getD (s.page - 1) default).type = "객관식"
          ∧ pyFalsy ans = true) →
      ¬ (strip (questions.getD (s.page - 1) default).type = "주관식"
          ∧ strip (pyOrEmpty ans) = "") →
      step questions s (SessionAction.submit ans)
        = ({ page := s.page + 1,
             answers := dictSet s.answers (questions.getD (s.page - 1) default).id
               (strip (pyOrEmpty ans)),
             username := s.username }, none))
    ∧ ∀ a : SessionAction,
        (step questions s a).1.page = s.page + 1
        ∨ (step questions s a).1.page = s.page
        ∨ (step questions s a).1.page = 0 := by
  constructor
  · intro h1 h2 hn1 hn2
    simp only [step, if_neg h1, if_pos h2]
    rw [if_neg hn1, if_neg hn2]
  · intro a
    by_cases hp0 : s.page = 0
    · cases a <;> simp [step, hp0]
    · by_cases h1 : s.page ≤ questions.length
      · cases a with
        | start name => simp [step, hp0, h1]
        | restart => simp [step, hp0, h1]
        | submit ans2 =>
          simp only [step, if_neg hp0, if_pos h1]
          split_ifs <;> simp
      · cases a <;> simp [step, hp0, h1]

/-- Closed instance of `submit_records_and_page_monotonic`: a valid
subjective submission is trimmed, recorded and advances the page. -/
theorem submit_records_witness :
    step [{ id := "1", question := "", type := "주관식", image := "",
            choices := ["", "", ""], answer := "ok" }]
        { page := 1, answers := [], username := "kim" } (SessionAction.submit (some " ok "))
      = ({ page := 2, answers := [("1", "ok")], username := "kim" }, none) :=
  (submit_records_and_page_monotonic
    [{ id := "1", question := "", type := "주관식", image := "",
       choices := ["", "", ""], answer := "ok" }]
    { page := 1, answers := [], username := "kim" } (some " ok ")).1
    (by decide) (by decide) (by decide) (by decide)

/-- C10: `result_tier` is total on all of `Int`, not only on scores ≥ 0:
every negative score is captured by the first branch (score ≤ 5) and gets
the tier-1 asset and message. -/
theorem result_tier_neg (s : Int) (h : s < 0) :
    result_tier s
      = ("result1.png", "오.. 아직 MZ 감성 입문! 다음엔 더 잘하실 수 있어요 😉") := by
  simp only [result_tier]
  rw [if_pos (by omega)]

/-- Closed instance of `result_tier_neg` at the score -3. -/
theorem result_tier_neg_witness :
    result_tier (-3)
      = ("result1.png", "오.. 아직 MZ 감성 입문! 다음엔 더 잘하실 수 있어요 😉") :=
  result_tier_neg (-3) (by decide)
